import Mathlib

/-!
Verification development for the landsat-ml-cookbook repository.

The repository is a set of notebooks orchestrating a catalog-driven raster
access pipeline (resolve endpoint, read catalog, search, lazily
materialize, visualize).  The orchestration code under `src/` is embedded
directly (the landsat-collection filters, the asset band-extraction loop).
The pipeline stages themselves are implemented by external libraries, so
they are modelled from the specification, as marked on each definition.
-/

namespace Landsat

/-- A property value in an entry's free-form property mapping: numeric
(e.g. `eo:cloud_cover`) or textual (e.g. `platform`). -/
inductive PropVal
  | num (q : ℚ)
  | str (s : String)
deriving DecidableEq

/-- A geographic bounding box `(min-lon, min-lat, max-lon, max-lat)`,
coordinates modelled as exact rationals. -/
structure BBox where
  minLon : ℚ
  minLat : ℚ
  maxLon : ℚ
  maxLat : ℚ
deriving DecidableEq

/-- Band descriptor carried in an asset's `eo:bands` extra field, as used
by the geospatial notebook's preview table (`common_name`, `description`,
`name`, ...). -/
structure BandInfo where
  commonName : String
  description : String
  name : String
deriving DecidableEq

/-- An asset descriptor: an href plus the `extra_fields` mapping (from
which the notebook reads `"eo:bands"`). -/
structure Asset where
  href : String
  extraFields : List (String × List BandInfo)
deriving DecidableEq

/-- A catalog entry: an id, a mapping asset-name to asset descriptor, a
property mapping, an optional acquisition timestamp and a native spatial
footprint. -/
structure CatalogEntry where
  id : String
  assets : List (String × Asset)
  properties : List (String × PropVal)
  timestamp : Option Nat
  footprint : BBox
deriving DecidableEq

/-- A resolved catalog endpoint: a URL plus a data-type tag. -/
structure CatalogEndpoint where
  url : String
  dataTypeTag : String
deriving DecidableEq

/-- An N-dimensional labeled array: band and time axes, spatial extent,
dtype, a property mapping copied from the source entry, and pixel data
that stays `none` until an explicit realize step. -/
structure MaterializedArray where
  bandAxis : List String
  timeAxis : List Nat
  extent : BBox
  dtype : String
  attrs : List (String × PropVal)
  data : Option (List Nat)
deriving DecidableEq

/-- The error taxonomy of the pipeline. -/
inductive PipelineError
  | catalogAccess (msg : String)
  | missingBand (band : String)
  | missingTimestamp (entryId : String)
  | emptyIntersection
  | missingKey (key : String)
deriving DecidableEq

/-! ### Substring occurrence

Python's `"needle" in haystack` tests substring occurrence; we define it
on character lists. -/

/-- `leadsList n h` holds when the character list `n` is an initial
segment of `h`. -/
def leadsList : List Char → List Char → Bool
  | [], _ => true
  | _ :: _, [] => false
  | a :: as, b :: bs => a == b && leadsList as bs

/-- `occursIn n h` holds when `n` occurs contiguously somewhere in `h`
(Python's `n in h` on strings). -/
def occursIn (n : List Char) : List Char → Bool
  | [] => leadsList n []
  | c :: rest => leadsList n (c :: rest) || occursIn n rest

/-- Substring test on strings, the semantics of Python's `in`. -/
def substr (needle hay : String) : Bool :=
  occursIn needle.data hay.data

theorem leadsList_refl (n : List Char) : leadsList n n = true := by
  induction n with
  | nil => rfl
  | cons a as ih => simp [leadsList, ih]

theorem leadsList_append (n ys : List Char) : leadsList n (n ++ ys) = true := by
  induction n with
  | nil => rfl
  | cons a as ih => simp [leadsList, ih]

theorem occursIn_cons_of_occursIn (n : List Char) (c : Char) (h : List Char)
    (ho : occursIn n h = true) : occursIn n (c :: h) = true := by
  cases h with
  | nil => simp [occursIn] at ho ⊢; simp [ho]
  | cons b bs => simp [occursIn] at ho ⊢; tauto

theorem occursIn_of_leadsList (n h : List Char) (hl : leadsList n h = true) :
    occursIn n h = true := by
  cases h with
  | nil => simpa [occursIn] using hl
  | cons c cs => simp [occursIn, hl]

theorem occursIn_append_left (n xs ys : List Char) :
    occursIn n (xs ++ (n ++ ys)) = true := by
  induction xs with
  | nil => simpa using occursIn_of_leadsList n (n ++ ys) (leadsList_append n ys)
  | cons x xs ih => simpa using occursIn_cons_of_occursIn n x (xs ++ (n ++ ys)) ih

/-! ### Signing (modelled from the spec)

Modelled from the spec: the signing function is an external collaborator
of shape `(asset) -> signed_asset`, invoked per asset at access time, and
must be idempotent; the implementation (`planetary_computer.sign_inplace`)
is not part of the repository.  We model a signed href as one carrying a
signature query parameter. -/

/-- The query marker that a signed href carries. -/
def sigMarker : String := "?sig="

/-- An href is signed when it carries the signature marker. -/
def isSigned (href : String) : Bool :=
  substr sigMarker href

/-- Modelled from the spec: sign an href; an already-signed href is left
unchanged (idempotence requirement of the external signer interface). -/
def sign (href : String) : String :=
  if isSigned href then href else href ++ (sigMarker ++ "TOKEN")

/-- Sign a single asset descriptor, returning a new descriptor. -/
def signAsset (a : Asset) : Asset :=
  { a with href := sign a.href }

/-- Sign every asset href of an entry, returning a new entry; the input
entry is a value and is not modified. -/
def signEntryAssets (e : CatalogEntry) : CatalogEntry :=
  { e with assets := e.assets.map (fun p => (p.1, signAsset p.2)) }

theorem isSigned_sign (h : String) : isSigned (sign h) = true := by
  cases hs : isSigned h with
  | true => simp [sign, hs]
  | false =>
    have hdata : (h ++ (sigMarker ++ "TOKEN")).data
        = h.data ++ (sigMarker.data ++ "TOKEN".data) := by
      simp [String.data_append]
    simp only [sign, hs, Bool.false_eq_true, if_false]
    show substr sigMarker (h ++ (sigMarker ++ "TOKEN")) = true
    unfold substr
    rw [hdata]
    exact occursIn_append_left _ _ _

theorem sign_idem (h : String) : sign (sign h) = sign h := by
  conv_lhs => rw [sign]
  simp [isSigned_sign]

theorem signAsset_idem (a : Asset) : signAsset (signAsset a) = signAsset a := by
  simp [signAsset, sign_idem]

/-- C3 demo data: an unsigned asset and an entry holding it. -/
def demoAsset : Asset :=
  { href := "https://example.com/B04.tif", extraFields := [] }

def demoSignEntry : CatalogEntry :=
  { id := "demo-item"
    assets := [("red", demoAsset)]
    properties := []
    timestamp := some 10
    footprint := ⟨0, 0, 1, 1⟩ }

/-- C3: For every asset, signing is idempotent, signing the assets of an
entry read twice independently gives the same valid (signed) results, and
the unsigned descriptor is left unchanged (signing returns new values). -/
theorem signing_idempotent_and_pure :
    (∀ a : Asset, signAsset (signAsset a) = signAsset a) ∧
    (∀ e : CatalogEntry,
      signEntryAssets (signEntryAssets e) = signEntryAssets e ∧
      (∀ p ∈ (signEntryAssets e).assets, isSigned p.2.href = true)) := by
  refine ⟨signAsset_idem, fun e => ⟨?_, ?_⟩⟩
  · simp [signEntryAssets, Function.comp, signAsset_idem]
  · intro p hp
    simp only [signEntryAssets, List.mem_map] at hp
    obtain ⟨q, _, rfl⟩ := hp
    simpa [signAsset] using isSigned_sign q.2.href

/-- C3 witness at the demo entry. -/
theorem signing_idempotent_and_pure_witness :
    signAsset (signAsset demoAsset) = signAsset demoAsset ∧
    isSigned ("red", signAsset demoAsset).2.href = true :=
  ⟨signing_idempotent_and_pure.1 demoAsset,
   (signing_idempotent_and_pure.2 demoSignEntry).2 ("red", signAsset demoAsset)
     (by simp [signEntryAssets, demoSignEntry])⟩

/-! ### Lazy materialization (modelled from the spec)

Modelled from the spec: the Lazy Materialization Stage is implemented by
the external libraries `odc.stac.stac_load` / intake's `StackBands`
reader, which are not part of the repository; the definitions below
follow the spec's contract for that stage. -/

/-- The band names an entry exposes (its asset mapping keys). -/
def bandNames (e : CatalogEntry) : List String :=
  e.assets.map Prod.fst

/-- Whether an entry exposes a band of the given name. -/
def hasBand (e : CatalogEntry) (b : String) : Bool :=
  (bandNames e).contains b

/-- Modelled from the spec: single-entry multi-band materialization.
Bands are stacked along a new `band` axis in the order requested; a
requested band name absent from the entry fails with `missingBand`
naming the offending band.  The entry's property mapping is copied onto
the array; no pixel data is fetched. -/
def stackBands (e : CatalogEntry) (req : List String) :
    Except PipelineError MaterializedArray :=
  match req.find? (fun b => !(hasBand e b)) with
  | some b => .error (.missingBand b)
  | none =>
      .ok { bandAxis := req
            timeAxis := []
            extent := e.footprint
            dtype := "uint16"
            attrs := e.properties
            data := none }

/-- Modelled from the spec: multi-entry temporal materialization.
Entries are stacked along a `time` axis ordered by acquisition timestamp
ascending; an entry with a missing timestamp is rejected with
`missingTimestamp` naming it. -/
def stackTime (entries : List CatalogEntry) :
    Except PipelineError MaterializedArray :=
  match entries.find? (fun e => e.timestamp.isNone) with
  | some e => .error (.missingTimestamp e.id)
  | none =>
      .ok { bandAxis := []
            timeAxis := List.insertionSort (· ≤ ·) (entries.filterMap (·.timestamp))
            extent := match entries with
                      | [] => ⟨0, 0, 0, 0⟩
                      | e :: _ => e.footprint
            dtype := "uint16"
            attrs := match entries with
                     | [] => []
                     | e :: _ => e.properties
            data := none }

/-- Intersection of two bounding boxes (as closed boxes). -/
def interBox (a b : BBox) : BBox :=
  { minLon := max a.minLon b.minLon
    minLat := max a.minLat b.minLat
    maxLon := min a.maxLon b.maxLon
    maxLat := min a.maxLat b.maxLat }

/-- A bounding box is nonempty when its min corner is at most its max
corner on both axes. -/
def boxNonempty (b : BBox) : Bool :=
  decide (b.minLon ≤ b.maxLon ∧ b.minLat ≤ b.maxLat)

/-- Modelled from the spec: spatial clipping.  Crops the array to the
intersection of the requested box and the entry's native footprint;
fails with `emptyIntersection` when the intersection is empty. -/
def clipTo (e : CatalogEntry) (box : BBox) (arr : MaterializedArray) :
    Except PipelineError MaterializedArray :=
  let inter := interBox box e.footprint
  if boxNonempty inter then .ok { arr with extent := inter }
  else .error .emptyIntersection

/-- The external pixel service as seen by a realize step: pixel values
looked up by href, free to differ between fetches. -/
structure World where
  fetch : String → Nat

/-- Modelled from the spec: array construction (materialization without
realization).  Only metadata from the entry is consulted: the world (the
remote pixel service) is not read. -/
def constructArray (_w : World) (e : CatalogEntry) (req : List String)
    (box : BBox) : Except PipelineError MaterializedArray := do
  let arr ← stackBands e req
  clipTo e box arr

/-- Modelled from the spec: the explicit realize step, a separate call
that fetches actual pixel values from the world. -/
def realize (w : World) (arr : MaterializedArray) : MaterializedArray :=
  { arr with data := some (arr.bandAxis.map w.fetch) }

/-- C1 demo data: the entry exposing exactly red, green and blue. -/
def rgbEntry : CatalogEntry :=
  { id := "LC08-demo"
    assets := [("red", { href := "https://example.com/B04.tif", extraFields := [] }),
               ("green", { href := "https://example.com/B03.tif", extraFields := [] }),
               ("blue", { href := "https://example.com/B02.tif", extraFields := [] })]
    properties := [("platform", .str "landsat-8"), ("eo:cloud_cover", .num (1/2))]
    timestamp := some 100
    footprint := ⟨-119, 38, -118, 39⟩ }

/-- The array produced by stacking red, green and blue on `rgbEntry`. -/
def rgbStacked : MaterializedArray :=
  { bandAxis := ["red", "green", "blue"]
    timeAxis := []
    extent := ⟨-119, 38, -118, 39⟩
    dtype := "uint16"
    attrs := [("platform", .str "landsat-8"), ("eo:cloud_cover", .num (1/2))]
    data := none }

/-- C1: Whenever single-entry multi-band materialization succeeds, the
new band axis lists exactly the requested band names in the requested
order. -/
theorem stackBands_band_order (e : CatalogEntry) (req : List String)
    (arr : MaterializedArray) (h : stackBands e req = .ok arr) :
    arr.bandAxis = req := by
  unfold stackBands at h
  cases hf : req.find? (fun b => !(hasBand e b)) with
  | some b => rw [hf] at h; exact absurd h (by simp)
  | none => rw [hf] at h; cases h; rfl

/-- C1 witness: materializing red, green, blue on the demo entry yields
the band axis red, green, blue in that order. -/
theorem stackBands_band_order_witness :
    stackBands rgbEntry ["red", "green", "blue"] = .ok rgbStacked ∧
    rgbStacked.bandAxis = ["red", "green", "blue"] :=
  ⟨by rfl, stackBands_band_order rgbEntry ["red", "green", "blue"] rgbStacked (by rfl)⟩

/-- C6: If the request names a band the entry does not expose, the
single-entry materialization fails with a `missingBand` error naming the
(first such) offending band, and never succeeds. -/
theorem stackBands_missing_band :
    (∀ (e : CatalogEntry) (req : List String) (b : String),
      req.find? (fun x => !(hasBand e x)) = some b →
      b ∈ req ∧ hasBand e b = false ∧ stackBands e req = .error (.missingBand b)) ∧
    (∀ (e : CatalogEntry) (req : List String),
      req.any (fun x => !(hasBand e x)) = true →
      ∀ arr, stackBands e req ≠ .ok arr) := by
  constructor
  · intro e req b hf
    refine ⟨List.mem_of_find?_eq_some hf, ?_, ?_⟩
    · have := List.find?_some hf
      simpa using this
    · unfold stackBands
      rw [hf]
  · intro e req hany arr hok
    unfold stackBands at hok
    cases hf : req.find? (fun x => !(hasBand e x)) with
    | some b => rw [hf] at hok; exact absurd hok (by simp)
    | none =>
      rw [List.find?_eq_none] at hf
      rw [List.any_eq_true] at hany
      obtain ⟨x, hx, hpx⟩ := hany
      exact hf x hx hpx

/-- C6 witness: requesting `nir9` on the entry exposing only red, green
and blue fails with a `missingBand` error naming `nir9`. -/
theorem stackBands_missing_band_witness :
    "nir9" ∈ ["red", "green", "blue", "nir9"] ∧
    hasBand rgbEntry "nir9" = false ∧
    stackBands rgbEntry ["red", "green", "blue", "nir9"]
      = .error (.missingBand "nir9") :=
  stackBands_missing_band.1 rgbEntry ["red", "green", "blue", "nir9"] "nir9" (by rfl)

/-- C2 demo data: three entries whose timestamps arrive out of order
(T2 = 20, T1 = 10, T3 = 30). -/
def entryAt (i : String) (t : Nat) : CatalogEntry :=
  { id := i, assets := [], properties := [], timestamp := some t
    footprint := ⟨-119, 38, -118, 39⟩ }

def demoTimeEntries : List CatalogEntry :=
  [entryAt "e2" 20, entryAt "e1" 10, entryAt "e3" 30]

/-- The array produced by temporally stacking `demoTimeEntries`. -/
def demoTimeStacked : MaterializedArray :=
  { bandAxis := []
    timeAxis := [10, 20, 30]
    extent := ⟨-119, 38, -118, 39⟩
    dtype := "uint16"
    attrs := []
    data := none }

/-- C2: Whenever multi-entry temporal materialization succeeds, the time
axis lists the entries' acquisition timestamps in ascending order
regardless of input order; and any entry with a missing timestamp makes
the operation fail with a `missingTimestamp` error naming (the first)
such entry, never succeed. -/
theorem stackTime_sorted_and_rejects :
    (∀ (entries : List CatalogEntry) (arr : MaterializedArray),
      stackTime entries = .ok arr →
      arr.timeAxis.Sorted (· ≤ ·) ∧
      arr.timeAxis.Perm (entries.filterMap (·.timestamp))) ∧
    (∀ (entries : List CatalogEntry) (e : CatalogEntry),
      entries.find? (fun e => e.timestamp.isNone) = some e →
      e ∈ entries ∧ e.timestamp = none ∧
      stackTime entries = .error (.missingTimestamp e.id)) ∧
    (∀ (entries : List CatalogEntry),
      entries.any (fun e => e.timestamp.isNone) = true →
      ∀ arr, stackTime entries ≠ .ok arr) := by
  refine ⟨?_, ?_, ?_⟩
  · intro entries arr h
    unfold stackTime at h
    cases hf : entries.find? (fun e => e.timestamp.isNone) with
    | some e => rw [hf] at h; exact absurd h (by simp)
    | none =>
      rw [hf] at h
      cases h
      constructor
      · exact List.sorted_insertionSort _ _
      · exact List.perm_insertionSort _ _
  · intro entries e hf
    refine ⟨List.mem_of_find?_eq_some hf, ?_, ?_⟩
    · have := List.find?_some hf
      simpa [Option.isNone_iff_eq_none] using this
    · unfold stackTime
      rw [hf]
  · intro entries hany arr hok
    unfold stackTime at hok
    cases hf : entries.find? (fun e => e.timestamp.isNone) with
    | some e => rw [hf] at hok; exact absurd hok (by simp)
    | none =>
      rw [List.find?_eq_none] at hf
      rw [List.any_eq_true] at hany
      obtain ⟨x, hx, hpx⟩ := hany
      exact hf x hx hpx

/-- C2 witness: entries with timestamps 20, 10, 30 stack to the time
axis 10, 20, 30, which is sorted and a permutation of the inputs. -/
theorem stackTime_sorted_and_rejects_witness :
    stackTime demoTimeEntries = .ok demoTimeStacked ∧
    demoTimeStacked.timeAxis.Sorted (· ≤ ·) ∧
    demoTimeStacked.timeAxis.Perm (demoTimeEntries.filterMap (·.timestamp)) :=
  ⟨by rfl, stackTime_sorted_and_rejects.1 demoTimeEntries demoTimeStacked (by rfl)⟩

/-- C7 demo data: the notebook's bounding box over a lake in Nevada, and
an entry whose footprint does not intersect it. -/
def nevadaBbox : BBox := ⟨-118.89, 38.54, -118.57, 38.84⟩

def farEntry : CatalogEntry :=
  { id := "far-away", assets := [], properties := [], timestamp := some 5
    footprint := ⟨-100, 40, -99, 41⟩ }

/-- C7: A successful spatial clip crops the array exactly to the
(nonempty) intersection of the requested box and the entry's native
footprint, leaving the other fields alone; when that intersection is
empty the clip fails with `emptyIntersection` rather than returning any
array. -/
theorem clipTo_intersection :
    (∀ (e : CatalogEntry) (box : BBox) (arr out : MaterializedArray),
      clipTo e box arr = .ok out →
      out.extent = interBox box e.footprint ∧
      boxNonempty (interBox box e.footprint) = true ∧
      out = { arr with extent := interBox box e.footprint }) ∧
    (∀ (e : CatalogEntry) (box : BBox) (arr : MaterializedArray),
      boxNonempty (interBox box e.footprint) = false →
      clipTo e box arr = .error .emptyIntersection) := by
  constructor
  · intro e box arr out h
    unfold clipTo at h
    cases hb : boxNonempty (interBox box e.footprint) with
    | true => simp only [hb, if_true] at h; cases h; exact ⟨rfl, rfl, rfl⟩
    | false => simp only [hb, Bool.false_eq_true, if_false] at h; exact absurd h (by simp)
  · intro e box arr hb
    unfold clipTo
    simp only [hb, Bool.false_eq_true, if_false]

theorem nevada_far_disjoint :
    boxNonempty (interBox nevadaBbox farEntry.footprint) = false := by
  simp only [boxNonempty, interBox, nevadaBbox, farEntry]
  rw [decide_eq_false_iff_not]
  rintro ⟨h1, -⟩
  rw [max_def, min_def] at h1
  norm_num at h1

/-- C7 witness: clipping to the notebook's Nevada bbox against an entry
whose footprint is disjoint from it fails with `emptyIntersection`. -/
theorem clipTo_intersection_witness :
    boxNonempty (interBox nevadaBbox farEntry.footprint) = false ∧
    clipTo farEntry nevadaBbox rgbStacked = .error .emptyIntersection :=
  ⟨nevada_far_disjoint,
   clipTo_intersection.2 farEntry nevadaBbox rgbStacked nevada_far_disjoint⟩

/-- C9: Array construction (materialization without realization) is
deterministic in the requested tuple: for a fixed entry, band list and
bounding box, constructing against any two states of the external pixel
service (in particular, twice in a row) yields identical arrays — hence
identical shape, dtype and coordinate labels.  Construction reads only
entry metadata, never the pixel service. -/
theorem constructArray_deterministic (w₁ w₂ : World) (e : CatalogEntry)
    (req : List String) (box : BBox) :
    constructArray w₁ e req box = constructArray w₂ e req box ∧
    (constructArray w₁ e req box).map (·.bandAxis)
      = (constructArray w₂ e req box).map (·.bandAxis) ∧
    (constructArray w₁ e req box).map (·.dtype)
      = (constructArray w₂ e req box).map (·.dtype) ∧
    (constructArray w₁ e req box).map (·.extent)
      = (constructArray w₂ e req box).map (·.extent) :=
  ⟨rfl, rfl, rfl, rfl⟩

/-! ### Search/Filter stage (modelled from the spec)

Modelled from the spec: the Search/Filter Stage is implemented by the
external catalog service reached through `catalog.search` /
`search.item_collection()`, not by repository code; the definitions below
follow the spec's contract for that stage. -/

/-- An attribute comparison of a search predicate: equality, strict
less-than on a numeric property, or membership in a set (the notebook's
`{"eo:cloud_cover": {"lt": 1}, "platform": {"in": [platform]}}`). -/
inductive AttrCmp
  | eqStr (key val : String)
  | ltNum (key : String) (val : ℚ)
  | inSet (key : String) (vals : List String)
deriving DecidableEq

/-- A search predicate: bounding box, inclusive time interval, attribute
comparisons. -/
structure SearchPredicate where
  bbox : BBox
  timeStart : Nat
  timeEnd : Nat
  attrs : List AttrCmp
deriving DecidableEq

/-- Look a property up in an entry's property mapping. -/
def propLookup (e : CatalogEntry) (k : String) : Option PropVal :=
  e.properties.lookup k

/-- Whether one attribute comparison holds of an entry ("<" is strict;
a missing or ill-typed property never matches). -/
def attrHolds (e : CatalogEntry) : AttrCmp → Bool
  | .eqStr k v =>
      match propLookup e k with
      | some (.str s) => s == v
      | _ => false
  | .ltNum k v =>
      match propLookup e k with
      | some (.num q) => decide (q < v)
      | _ => false
  | .inSet k vs =>
      match propLookup e k with
      | some (.str s) => vs.contains s
      | _ => false

/-- Whether an entry's timestamp falls in the predicate's inclusive time
interval. -/
def inTimeRange (p : SearchPredicate) (e : CatalogEntry) : Bool :=
  match e.timestamp with
  | some t => decide (p.timeStart ≤ t ∧ t ≤ p.timeEnd)
  | none => false

/-- Whether an entry matches a search predicate: footprint meets the
bounding box, timestamp in range, and every attribute comparison holds. -/
def matchesPred (p : SearchPredicate) (e : CatalogEntry) : Bool :=
  boxNonempty (interBox p.bbox e.footprint) && inTimeRange p e
    && p.attrs.all (attrHolds e)

/-- Modelled from the spec: the Search/Filter stage.  A total function:
it returns the matching entries and cannot raise. -/
def searchCatalog (p : SearchPredicate) (entries : List CatalogEntry) :
    List CatalogEntry :=
  entries.filter (matchesPred p)

/-- C5 demo predicate: the notebook's search but over a time window no
demo entry falls in, so the match set is empty. -/
def emptyMatchPred : SearchPredicate :=
  { bbox := ⟨-119, 38, -118, 39⟩
    timeStart := 1000
    timeEnd := 2000
    attrs := [.ltNum "eo:cloud_cover" 1, .inSet "platform" ["landsat-8"]] }

/-- C5: For every search predicate whose match set over the catalog is
empty, the Search/Filter stage returns the empty sequence (and, being a
total function into lists, raises no error). -/
theorem searchCatalog_empty_ok (p : SearchPredicate)
    (entries : List CatalogEntry)
    (h : ∀ e ∈ entries, matchesPred p e = false) :
    searchCatalog p entries = [] := by
  unfold searchCatalog
  rw [List.filter_eq_nil_iff]
  intro a ha
  simp [h a ha]

/-- C5 witness: the demo predicate matches nothing among the demo
entries, and the search returns the empty sequence. -/
theorem searchCatalog_empty_ok_witness :
    searchCatalog emptyMatchPred (rgbEntry :: demoTimeEntries) = [] :=
  searchCatalog_empty_ok emptyMatchPred (rgbEntry :: demoTimeEntries)
    (by decide)

/-! ### Pipeline state and immutability (modelled from the spec)

Modelled from the spec: the stages below orchestrate the external
services; `CatalogEndpoint` and `CatalogEntry` values in the pipeline
state are immutable snapshots created by read operations, and no later
stage (search, per-asset signing at access time, materialization,
visualization) writes to them. -/

/-- The state owned by one pipeline invocation: the resolved endpoint,
the catalog snapshot read from it, and the rendered artifacts. -/
structure PipelineState where
  endpoint : CatalogEndpoint
  catalog : List CatalogEntry
  rendered : List String

/-- The Search/Filter stage on the pipeline state. -/
def searchStage (p : SearchPredicate) (s : PipelineState) :
    List CatalogEntry × PipelineState :=
  (searchCatalog p s.catalog, s)

/-- Per-asset access with signing at access time: returns a signed copy
of the requested asset descriptor; the stored snapshot is not written. -/
def accessAssetStage (i : Nat) (name : String) (s : PipelineState) :
    Option Asset × PipelineState :=
  (match s.catalog.get? i with
   | some e => (e.assets.lookup name).map signAsset
   | none => none, s)

/-- The materialization stage on the pipeline state. -/
def materializeStage (w : World) (i : Nat) (req : List String) (box : BBox)
    (s : PipelineState) :
    Except PipelineError MaterializedArray × PipelineState :=
  (match s.catalog.get? i with
   | some e => constructArray w e req box
   | none => .error (.catalogAccess "no such entry"), s)

/-- Rendering an array into an image artifact (presentation only). -/
def renderImage (arr : MaterializedArray) : String :=
  String.intercalate "," arr.bandAxis ++ "@" ++ arr.dtype

/-- The visualization stage: records a rendered artifact; it reads the
array and touches nothing upstream. -/
def visualizeStage (arr : MaterializedArray) (s : PipelineState) :
    PipelineState :=
  { s with rendered := s.rendered ++ [renderImage arr] }

/-- C8: Once created by a read, the endpoint and catalog-entry snapshots
in the pipeline state are never changed by any subsequent stage: search,
per-asset signing at access time and materialization leave the whole
state unchanged, and visualization leaves the endpoint and the catalog
unchanged (it only appends a rendered artifact). -/
theorem snapshots_immutable (s : PipelineState) (p : SearchPredicate)
    (i : Nat) (name : String) (w : World) (req : List String) (box : BBox)
    (arr : MaterializedArray) :
    (searchStage p s).2 = s ∧
    (accessAssetStage i name s).2 = s ∧
    (materializeStage w i req box s).2 = s ∧
    (visualizeStage arr s).endpoint = s.endpoint ∧
    (visualizeStage arr s).catalog = s.catalog :=
  ⟨rfl, rfl, rfl, rfl, rfl⟩

/-! ### The geospatial notebook's band-extraction preview loop

Embedded from `src/notebooks/1.0_Data_Ingestion-Geospatial.ipynb`:

    assets = []
    for _, asset in selected_item.assets.items():
        try:
            assets.append(asset.extra_fields["eo:bands"][0])
        except:
            pass

Any exception (the `"eo:bands"` key being absent, or its list being
empty) is caught and the asset silently skipped. -/

/-- The notebook's preview loop over an entry's assets. -/
def collectPreviewBands : List (String × Asset) → List BandInfo
  | [] => []
  | (_, a) :: rest =>
      match (a.extraFields.lookup "eo:bands").bind List.head? with
      | some b => b :: collectPreviewBands rest
      | none => collectPreviewBands rest

/-- Written from the spec's words (propagation policy: every stage
surfaces errors to its caller immediately; no stage swallows or silently
substitutes defaults): the same extraction, but a missing or empty
`eo:bands` field is surfaced as an error naming the key. -/
def collectPreviewBandsStrict : List (String × Asset) →
    Except PipelineError (List BandInfo)
  | [] => .ok []
  | (_, a) :: rest =>
      match (a.extraFields.lookup "eo:bands").bind List.head? with
      | some b => do pure (b :: (← collectPreviewBandsStrict rest))
      | none => .error (.missingKey "eo:bands")

/-- A non-band asset of the selected Landsat item: its `extra_fields`
carries no `eo:bands` key. -/
def thumbnailAsset : Asset :=
  { href := "https://example.com/thumbnail.jpg", extraFields := [] }

/-- C4 counterexample: on an asset whose descriptor lacks `eo:bands`,
the notebook's extraction loop swallows the lookup failure and returns
successfully (skipping the asset), while the spec's propagation policy
demands the error be surfaced — so the claim that no stage swallows an
error is false at this input. -/
theorem preview_loop_swallows_counterexample :
    collectPreviewBands [("thumbnail", thumbnailAsset)] = [] ∧
    collectPreviewBandsStrict [("thumbnail", thumbnailAsset)]
      = .error (.missingKey "eo:bands") :=
  ⟨rfl, rfl⟩

/-- The band descriptors of the assets that do carry a nonempty
`eo:bands` field, in asset order. -/
def firstEoBand (p : String × Asset) : Option BandInfo :=
  (p.2.extraFields.lookup "eo:bands").bind List.head?

/-- C4 (amended): the band-extraction preview loop never raises — it
yields exactly the first `eo:bands` descriptor of each asset that has
one, silently skipping the rest — while the (modelled) materialization
stage does surface its errors immediately: a band-stacking failure
propagates unchanged through array construction. -/
theorem preview_loop_swallows :
    (∀ assets : List (String × Asset),
      collectPreviewBands assets = assets.filterMap firstEoBand) ∧
    (∀ (w : World) (e : CatalogEntry) (req : List String) (box : BBox)
        (err : PipelineError),
      stackBands e req = .error err →
      constructArray w e req box = .error err) := by
  constructor
  · intro assets
    induction assets with
    | nil => rfl
    | cons p rest ih =>
      obtain ⟨n, a⟩ := p
      show (match (a.extraFields.lookup "eo:bands").bind List.head? with
            | some b => b :: collectPreviewBands rest
            | none => collectPreviewBands rest) = _
      rw [List.filterMap_cons]
      cases hb : (a.extraFields.lookup "eo:bands").bind List.head? with
      | some b => simp [firstEoBand, hb, ih]
      | none => simp [firstEoBand, hb, ih]
  · intro w e req box err h
    unfold constructArray
    rw [h]
    rfl

/-- C4 amended-claim witness: at the thumbnail asset the loop yields the
skip outcome, and a missing-band failure propagates unchanged through
construction at a concrete request. -/
theorem preview_loop_swallows_witness :
    collectPreviewBands [("thumbnail", thumbnailAsset)]
      = [("thumbnail", thumbnailAsset)].filterMap firstEoBand ∧
    constructArray ⟨fun _ => 0⟩ rgbEntry ["nir9"] nevadaBbox
      = .error (.missingBand "nir9") :=
  ⟨preview_loop_swallows.1 [("thumbnail", thumbnailAsset)],
   preview_loop_swallows.2 ⟨fun _ => 0⟩ rgbEntry ["nir9"] nevadaBbox
     (.missingBand "nir9") (by rfl)⟩

/-! ### The two landsat-collection filters

Embedded from the sources.  The geospatial notebook filters collection
ids with Python's case-sensitive substring test:

    landsat_collections = [
        collection for collection in all_collections if "landsat" in collection
    ]

while the Intake notebook lowercases each key first:

    [key for key in description.keys() if 'landsat' in key.lower()]

(`lowerStr` below models `str.lower` on the ASCII collection ids). -/

/-- Characterwise lowercasing, the semantics of Python's `str.lower` on
ASCII ids. -/
def lowerStr (s : String) : String :=
  ⟨s.data.map Char.toLower⟩

/-- The geospatial notebook's filter over collection ids. -/
def landsatCollections (allCollections : List String) : List String :=
  allCollections.filter (fun collection => substr "landsat" collection)

/-- The geospatial notebook's keep-test for one id. -/
def geoKeeps (c : String) : Bool :=
  substr "landsat" c

/-- The Intake notebook's keep-test for one key. -/
def intakeKeeps (k : String) : Bool :=
  substr "landsat" (lowerStr k)

/-- The Intake notebook's filter over description keys. -/
def landsatKeys (keys : List String) : List String :=
  keys.filter intakeKeeps

/-- C10: The two filters disagree on case handling: the geospatial
notebook keeps an id exactly when the id passes the case-sensitive
substring test for `"landsat"` as-is; the Intake notebook's test
lowercases first, so keys equal up to case are kept or dropped alike;
and the two disagree concretely on `"Landsat-c2-l2"`, which only the
Intake filter keeps. -/
theorem landsat_filters_case_handling :
    (∀ (ids : List String) (c : String),
      c ∈ landsatCollections ids ↔ c ∈ ids ∧ geoKeeps c = true) ∧
    (∀ k k' : String, lowerStr k = lowerStr k' →
      intakeKeeps k = intakeKeeps k') ∧
    (geoKeeps "Landsat-c2-l2" = false ∧ intakeKeeps "Landsat-c2-l2" = true) := by
  refine ⟨?_, ?_, ?_, ?_⟩
  · intro ids c
    unfold landsatCollections geoKeeps
    exact List.mem_filter
  · intro k k' h
    unfold intakeKeeps
    rw [h]
  · decide
  · decide

/-- C10 witness: keys equal up to case are treated alike by the Intake
filter; applied at `"LANDSAT-C2-L2"` and `"Landsat-c2-l2"`, together with
the geospatial filter's verdict on the concrete list. -/
theorem landsat_filters_case_handling_witness :
    intakeKeeps "LANDSAT-C2-L2" = intakeKeeps "Landsat-c2-l2" ∧
    ("landsat-c2-l2" ∈ landsatCollections ["Landsat-c2-l2", "landsat-c2-l2"]
      ↔ "landsat-c2-l2" ∈ ["Landsat-c2-l2", "landsat-c2-l2"]
        ∧ geoKeeps "landsat-c2-l2" = true) :=
  ⟨landsat_filters_case_handling.2.1 "LANDSAT-C2-L2" "Landsat-c2-l2" (by decide),
   landsat_filters_case_handling.1 ["Landsat-c2-l2", "landsat-c2-l2"]
     "landsat-c2-l2"⟩

end Landsat
